import Mathlib

/-!
# Verification of the Docker_Container_monitor core against its specification

Shallow embedding of the repository's core logic:

* the stats sampler (`calculateCPUPercent` in `monitor.go`, `calcCPU` in
  `internal/docker/stats.go`, and the memory-percentage computations of the two
  `showStats` drafts in `monitor.go`);
* the probe orchestrator (`CheckServices` in `internal/docker/service.go` and
  `executeLocalServiceCheck` in `monitor.go`), including its classification
  rule, its webhook alert pass and its transport-failure path;
* the SSH alias resolution (`getSSHConfig` in `monitor.go`);
* the watch/refresh loop (`watchMode` in `monitor.go`), as a transition system
  over the events its `select` statement can receive;
* the lock discipline of the probe goroutines, as explicit action traces read
  off the goroutine bodies (including Go `defer` LIFO order).

Go `uint64` values are embedded as `Nat` together with the wrap-around
subtraction `usub64` (Go computes `a - b` on `uint64` modulo `2^64`).
Go `float64` results of the CPU formula are embedded in `ℚ`: the only facts
proved about them are branch selection and exact formula shape, and the branch
guards (`float64(x) > 0` for a `uint64` `x`) coincide with `x > 0` exactly.
Where an IEEE division by zero matters (the memory percentage) a dedicated
`GoFloat` type with `nan`/`inf` is used instead.
-/

/-! ## Stats sampler: CPU percentage (`monitor.go:675`, `internal/docker/stats.go:69`) -/

/-- Go `uint64` subtraction `a - b`, which wraps modulo `2^64`.
Inputs are `Nat`s assumed (and in every use here, proven or given) `< 2^64`. -/
def usub64 (a b : Nat) : Nat := (a + 2 ^ 64 - b) % 2 ^ 64

/-- `types.CPUUsage` — the fields read by the repository:
`TotalUsage uint64`, `PercpuUsage []uint64`. -/
structure CPUUsage where
  totalUsage : Nat
  percpuUsage : List Nat
deriving Repr, DecidableEq

/-- `types.CPUStats` — the fields read by the repository:
`CPUUsage`, `SystemUsage uint64`, `OnlineCPUs uint32`. -/
structure CPUStats where
  cpuUsage : CPUUsage
  systemUsage : Nat
  onlineCPUs : Nat
deriving Repr, DecidableEq

/-- The slice of `types.StatsJSON` the CPU computations read:
`CPUStats` (current) and `PreCPUStats` (previous snapshot). -/
structure StatsJSON where
  cpuStats : CPUStats
  preCPUStats : CPUStats
deriving Repr, DecidableEq

/-- `calculateCPUPercent` (`monitor.go:675-688`).  Go source:

    cpuDelta := float64(stats.CPUStats.CPUUsage.TotalUsage - stats.PreCPUStats.CPUUsage.TotalUsage)
    systemDelta := float64(stats.CPUStats.SystemUsage - stats.PreCPUStats.SystemUsage)
    cpuCount := float64(stats.CPUStats.OnlineCPUs)
    if cpuCount == 0 { cpuCount = float64(runtime.NumCPU()) }
    if systemDelta > 0.0 && cpuDelta > 0.0 {
        return (cpuDelta / systemDelta) * cpuCount * 100.0
    }
    return 0.0

The `uint64` subtractions wrap (hence `usub64`); `runtime.NumCPU()` is passed
in as the parameter `numCPU`.  The result is embedded in `ℚ`. -/
def calculateCPUPercent (stats : StatsJSON) (numCPU : Nat) : ℚ :=
  let cpuDelta : ℚ := (usub64 stats.cpuStats.cpuUsage.totalUsage stats.preCPUStats.cpuUsage.totalUsage : ℚ)
  let systemDelta : ℚ := (usub64 stats.cpuStats.systemUsage stats.preCPUStats.systemUsage : ℚ)
  let cpuCount : ℚ := if stats.cpuStats.onlineCPUs = 0 then (numCPU : ℚ) else (stats.cpuStats.onlineCPUs : ℚ)
  if systemDelta > 0 ∧ cpuDelta > 0 then
    (cpuDelta / systemDelta) * cpuCount * 100
  else
    0

/-- `calcCPU` (`internal/docker/stats.go:69-76`).  Go source:

    delta := float64(s.CPUStats.CPUUsage.TotalUsage - s.PreCPUStats.CPUUsage.TotalUsage)
    system := float64(s.CPUStats.SystemUsage - s.PreCPUStats.SystemUsage)
    if system > 0 && delta > 0 {
        return (delta / system) * float64(len(s.CPUStats.CPUUsage.PercpuUsage)) * 100
    }
    return 0 -/
def calcCPU (s : StatsJSON) : ℚ :=
  let delta : ℚ := (usub64 s.cpuStats.cpuUsage.totalUsage s.preCPUStats.cpuUsage.totalUsage : ℚ)
  let system : ℚ := (usub64 s.cpuStats.systemUsage s.preCPUStats.systemUsage : ℚ)
  if system > 0 ∧ delta > 0 then
    (delta / system) * (s.cpuStats.cpuUsage.percpuUsage.length : ℚ) * 100
  else
    0

lemma usub64_of_le {a b : Nat} (hba : b ≤ a) (ha : a < 2 ^ 64) : usub64 a b = a - b := by
  unfold usub64
  have h1 : a + 2 ^ 64 - b = (a - b) + 2 ^ 64 := by omega
  rw [h1, Nat.add_mod_right]
  exact Nat.mod_eq_of_lt (by omega)

lemma usub64_self (a : Nat) : usub64 a a = 0 := by
  unfold usub64
  have h1 : a + 2 ^ 64 - a = 2 ^ 64 := by omega
  rw [h1]
  exact Nat.mod_self _

/-- Helper: convenient constructor for the CPU slice of a stats sample. -/
def mkStats (prevTotal prevSystem currTotal currSystem cpus : Nat)
    (percpu : List Nat) : StatsJSON :=
  { cpuStats := { cpuUsage := { totalUsage := currTotal, percpuUsage := percpu },
                  systemUsage := currSystem, onlineCPUs := cpus },
    preCPUStats := { cpuUsage := { totalUsage := prevTotal, percpuUsage := percpu },
                     systemUsage := prevSystem, onlineCPUs := cpus } }

/-- C1 (counterexample): the claim fails at two concrete snapshot pairs.
(a) It says the CPU-percent computation returns exactly `0` whenever
`delta = curr.cpuTotalUsage - prev.cpuTotalUsage` is not strictly positive:
at `prevTotal = 2, currTotal = 1` (mathematical delta `-1`),
`prevSystem = 0, currSystem = 1`, `onlineCPUs = 1`, the `uint64` subtraction
wraps to `2^64 - 1`, the `> 0` guard passes, and `calculateCPUPercent`
returns `(2^64 - 1) * 100`, not `0`.
(b) It says the result is `(delta/systemDelta) * onlineCPUs * 100` when both
deltas are positive: at `prev = (0,0), curr = (50,100)` with `onlineCPUs = 0`
(as Docker reports on some platforms) that formula gives
`(50/100) * 0 * 100 = 0`, but the code substitutes `runtime.NumCPU()` (here
4) and returns `200`. -/
theorem calculateCPUPercent_not_as_claimed :
    (calculateCPUPercent (mkStats 2 0 1 1 1 []) 4 = ((2 : ℚ) ^ 64 - 1) * 100 ∧
     calculateCPUPercent (mkStats 2 0 1 1 1 []) 4 ≠ 0) ∧
    (calculateCPUPercent (mkStats 0 0 50 100 0 []) 4 = 200 ∧
     calculateCPUPercent (mkStats 0 0 50 100 0 []) 4
       ≠ ((50 : ℚ) / 100) * 0 * 100) := by
  refine ⟨⟨?_, ?_⟩, ?_, ?_⟩ <;> norm_num [calculateCPUPercent, mkStats, usub64]

/-- C1 (amended): provided neither cumulative counter decreases between the
two snapshots (no counter reset, so the `uint64` subtractions do not wrap),
`calculateCPUPercent` returns `(delta / systemDelta) * C * 100` when both
`delta` and `systemDelta` are strictly positive — where `C` is `onlineCPUs`
when the snapshot reports a nonzero count and the host CPU count
(`runtime.NumCPU()`, the parameter `numCPU`) when it reports `0` — and
exactly `0` otherwise; in particular, when either counter is unchanged the
result is exactly `0`. -/
theorem calculateCPUPercent_formula (prevTotal prevSystem currTotal currSystem cpus numCPU : Nat)
    (percpu : List Nat)
    (hT : prevTotal ≤ currTotal) (hS : prevSystem ≤ currSystem)
    (hTb : currTotal < 2 ^ 64) (hSb : currSystem < 2 ^ 64) :
    calculateCPUPercent (mkStats prevTotal prevSystem currTotal currSystem cpus percpu) numCPU
      = if prevTotal < currTotal ∧ prevSystem < currSystem then
          (((currTotal : ℚ) - prevTotal) / ((currSystem : ℚ) - prevSystem))
            * (if cpus = 0 then (numCPU : ℚ) else (cpus : ℚ)) * 100
        else 0 := by
  have hT' : usub64 currTotal prevTotal = currTotal - prevTotal := usub64_of_le hT hTb
  have hS' : usub64 currSystem prevSystem = currSystem - prevSystem := usub64_of_le hS hSb
  simp only [calculateCPUPercent, mkStats, hT', hS']
  by_cases hcase : prevTotal < currTotal ∧ prevSystem < currSystem
  · have h1 : (0 : ℚ) < ((currSystem - prevSystem : Nat) : ℚ) := by
      exact_mod_cast Nat.sub_pos_of_lt hcase.2
    have h2 : (0 : ℚ) < ((currTotal - prevTotal : Nat) : ℚ) := by
      exact_mod_cast Nat.sub_pos_of_lt hcase.1
    rw [if_pos ⟨h1, h2⟩, if_pos hcase, Nat.cast_sub hT, Nat.cast_sub hS]
  · rw [if_neg, if_neg hcase]
    rintro ⟨h1, h2⟩
    apply hcase
    constructor
    · have : 0 < currTotal - prevTotal := by exact_mod_cast h2
      omega
    · have : 0 < currSystem - prevSystem := by exact_mod_cast h1
      omega

/-- C1 (witness for `calculateCPUPercent_formula`): at the concrete snapshot
pair `prevTotal = 0, currTotal = 50, prevSystem = 0, currSystem = 100`,
`onlineCPUs = 2`, the hypotheses hold and the result is `(50/100) * 2 * 100`. -/
theorem calculateCPUPercent_formula_witness :
    calculateCPUPercent (mkStats 0 0 50 100 2 []) 4
      = if 0 < 50 ∧ 0 < 100 then
          ((50 : ℚ) - 0) / ((100 : ℚ) - 0)
            * (if (2 : Nat) = 0 then (4 : ℚ) else (2 : ℚ)) * 100
        else 0 := by
  have h := calculateCPUPercent_formula 0 0 50 100 2 4 []
    (by decide) (by decide) (by norm_num) (by norm_num)
  simpa using h

/-- C3: the claim (and the spec's stated intent: "guards against ...
negative-delta anomalies (counter resets) by collapsing to zero") requires the
CPU-percent computation to return exactly `0` when a counter decreases between
the snapshots.  The code subtracts the `uint64` counters before converting to
float, so a reset wraps around: at `prevTotal = 100, currTotal = 50`
(total counter decreased), `prevSystem = 100, currSystem = 200`, one per-CPU
entry, `calcCPU` returns `2^64 - 50` — a huge positive value, not `0`.
The `delta > 0` guard can never observe a negative delta and is dead code for
resets. -/
theorem calcCPU_counter_reset_not_zero :
    calcCPU (mkStats 100 100 50 200 0 [0]) = (2 : ℚ) ^ 64 - 50 ∧
    calcCPU (mkStats 100 100 50 200 0 [0]) ≠ 0 := by
  constructor
  · norm_num [calcCPU, mkStats, usub64]
  · norm_num [calcCPU, mkStats, usub64]

/-! ## Stats sampler: memory percentage (`monitor.go:637-640` and `monitor.go:1399-1401`) -/

/-- Go `float64` values as produced by the memory-percentage computations.
All operands there are casts of `uint64` (nonnegative), so one `inf`
constructor (for `+Inf`) suffices; `-Inf` never arises in the embedded code. -/
inductive GoFloat
  | val : ℚ → GoFloat
  | inf : GoFloat
  | nan : GoFloat
deriving Repr, DecidableEq

/-- IEEE-754 division as Go performs it, restricted to the nonnegative operands
occurring in the embedded code: `a / 0` is `NaN` when `a = 0` and `+Inf` when
`a > 0`; otherwise exact division. -/
def GoFloat.div : GoFloat → GoFloat → GoFloat
  | nan, _ => nan
  | _, nan => nan
  | inf, inf => nan
  | inf, val _ => inf
  | val _, inf => val 0
  | val a, val b => if b = 0 then (if a = 0 then nan else inf) else val (a / b)

/-- IEEE-754 multiplication as Go performs it, restricted to the nonnegative
operands occurring in the embedded code (`Inf * 0 = NaN`). -/
def GoFloat.mul : GoFloat → GoFloat → GoFloat
  | nan, _ => nan
  | _, nan => nan
  | inf, inf => inf
  | inf, val b => if b = 0 then nan else inf
  | val a, inf => if a = 0 then nan else inf
  | val a, val b => val (a * b)

/-- Memory percentage of the first `showStats` draft (`monitor.go:637-640`):

    memPercent := 0.0
    if v.MemoryStats.Limit > 0 {
        memPercent = float64(v.MemoryStats.Usage) / float64(v.MemoryStats.Limit) * 100.0
    } -/
def memPercentGuarded (usage limit : Nat) : GoFloat :=
  let memPercent : GoFloat := .val 0
  if 0 < limit then
    ((GoFloat.val usage).div (GoFloat.val limit)).mul (.val 100)
  else
    memPercent

/-- Memory percentage of the second `showStats` draft (`monitor.go:1399-1401`):

    memUsage := v.MemoryStats.Usage
    memLimit := v.MemoryStats.Limit
    memPercent := float64(memUsage) / float64(memLimit) * 100.0

No guard on `memLimit`. -/
def memPercentUnguarded (usage limit : Nat) : GoFloat :=
  ((GoFloat.val usage).div (GoFloat.val limit)).mul (.val 100)

/-- C5 (counterexample): the claim says the memory-percentage computation never
performs a division by zero and never produces `NaN`.  The second `showStats`
draft (`monitor.go:1399-1401`) divides without guarding the limit: a stats
sample with `usage = 0, limit = 0` yields `NaN`, and `usage = 1, limit = 0`
yields `+Inf`. -/
theorem memPercentUnguarded_zero_limit_nan :
    memPercentUnguarded 0 0 = GoFloat.nan ∧ memPercentUnguarded 1 0 = GoFloat.inf := by
  constructor <;> rfl

/-- C5 (amended): the first `showStats` draft (`monitor.go:637-640`) guards the
limit — it reports `usage/limit*100` when `limit > 0` and the defined default
`0` when `limit = 0`, and in every case produces a finite value (never `NaN`,
never an infinity, never a division by zero); the second draft
(`monitor.go:1399-1401`) computes the same `usage/limit*100` whenever
`limit > 0`, but divides by zero when `limit = 0` (see the counterexample). -/
theorem memPercent_no_div_by_zero (usage limit : Nat) :
    memPercentGuarded usage limit
      = GoFloat.val (if 0 < limit then (usage : ℚ) / limit * 100 else 0) ∧
    (0 < limit → memPercentUnguarded usage limit = GoFloat.val ((usage : ℚ) / limit * 100)) := by
  have hdiv : 0 < limit →
      ((GoFloat.val (usage : ℚ)).div (GoFloat.val (limit : ℚ))).mul (.val 100)
        = GoFloat.val ((usage : ℚ) / limit * 100) := by
    intro hl
    have hlq : ((limit : ℚ)) ≠ 0 := by
      exact_mod_cast Nat.pos_iff_ne_zero.mp hl
    simp only [GoFloat.div, GoFloat.mul, if_neg hlq]
  constructor
  · unfold memPercentGuarded
    by_cases hl : 0 < limit
    · simp only [hl, if_true, hdiv hl]
    · simp only [hl, if_false]
  · intro hl
    unfold memPercentUnguarded
    exact hdiv hl

/-- C5 (witness for `memPercent_no_div_by_zero`): at `usage = 512`,
`limit = 1024` the hypothesis `0 < limit` holds and both drafts report
`512/1024*100 = 50`. -/
theorem memPercent_no_div_by_zero_witness :
    memPercentGuarded 512 1024 = GoFloat.val (if 0 < 1024 then (512 : ℚ) / 1024 * 100 else 0) ∧
    memPercentUnguarded 512 1024 = GoFloat.val ((512 : ℚ) / 1024 * 100) :=
  ⟨(memPercent_no_div_by_zero 512 1024).1,
   (memPercent_no_div_by_zero 512 1024).2 (by norm_num)⟩

/-! ## Probe orchestrator: classification (`internal/docker/service.go:46-62`) -/

/-- Outcome of one `http.Get` probe: either a request error, or a response with
its status code and the elapsed time (`time.Since(start)`, integer
nanoseconds).  The Go code evaluates `time.Since(start)` twice (once in the
guard, once in the degraded detail); classification depends only on the first
evaluation, which this single `elapsedNs` embeds. -/
inductive ProbeOutcome
  | err
  | resp (code : Nat) (elapsedNs : Int)
deriving DecidableEq, Repr

/-- The three value shapes of the `status` string in `CheckServices`
(`internal/docker/service.go:50-58`): `"unreachable"`, `"available"`, and
`fmt.Sprintf("%s (%v)", resp.Status, time.Since(start))`.  The third always
contains `" ("` so the three shapes are pairwise distinct Go strings, and the
later test `r.Status != "available"` distinguishes exactly these constructors. -/
inductive SvcStatus
  | available
  | unreachable
  | degraded (code : Nat) (elapsedNs : Int)
deriving DecidableEq, Repr

/-- The classification inside the probe goroutine
(`internal/docker/service.go:48-58`).  Go source:

    start := time.Now()
    resp, err := http.Get(url)
    status := "unreachable"
    if err == nil {
        if resp.StatusCode == 200 && time.Since(start) < threshold {
            status = "available"
        } else {
            status = fmt.Sprintf("%s (%v)", resp.Status, time.Since(start))
        }
        resp.Body.Close()
    } -/
def classifyProbe (threshold : Int) : ProbeOutcome → SvcStatus
  | .err => .unreachable
  | .resp code elapsed =>
    if code = 200 ∧ elapsed < threshold then .available
    else .degraded code elapsed

/-- C2: probe outcomes are classified in priority order — a request error is
`unreachable`; an HTTP 200 strictly under the threshold is `available`; an
HTTP 200 at exactly the threshold is degraded (the guard is
`elapsed < threshold`, so `elapsed = threshold` falls to the degraded branch),
and in particular is not `available`. -/
theorem classifyProbe_priority (threshold elapsed : Int) (h : elapsed < threshold) :
    classifyProbe threshold .err = .unreachable ∧
    classifyProbe threshold (.resp 200 elapsed) = .available ∧
    classifyProbe threshold (.resp 200 threshold) = .degraded 200 threshold ∧
    classifyProbe threshold (.resp 200 threshold) ≠ .available := by
  refine ⟨rfl, ?_, ?_, ?_⟩
  · simp [classifyProbe, h]
  · simp [classifyProbe]
  · simp [classifyProbe]

/-- C2 (witness for `classifyProbe_priority`): threshold 200ms (in ns) and a
response 1ms faster. -/
theorem classifyProbe_priority_witness :
    (199000000 : Int) < 200000000 ∧
    (classifyProbe 200000000 .err = .unreachable ∧
     classifyProbe 200000000 (.resp 200 199000000) = .available ∧
     classifyProbe 200000000 (.resp 200 200000000) = .degraded 200 200000000 ∧
     classifyProbe 200000000 (.resp 200 200000000) ≠ .available) :=
  ⟨by norm_num, classifyProbe_priority 200000000 199000000 (by norm_num)⟩

/-! ## Probe orchestrator: job derivation of `executeLocalServiceCheck`
(`monitor.go:294-387`)

Here the parsing itself is evaluated on concrete target lines, so Go strings
are embedded as `List Char` with `goSplit`, an executable embedding of
`strings.Split` (leftmost, non-overlapping matches of a non-empty separator).
-/

/-- A Go string, embedded as its character list. -/
abbrev GoStr := List Char

/-- `p` is a prefix of `s` (the prefix test `strings.Split` performs at each
position). -/
def beginsWith : GoStr → GoStr → Bool
  | [], _ => true
  | _ :: _, [] => false
  | p :: ps, c :: cs => p = c && beginsWith ps cs

/-- Fuel-indexed scanner of `strings.Split`: at each position, either the
separator matches (cut there, skip it) or the character joins the current
part.  Fuel `≥ s.length` (as `goSplit` supplies) never runs out on a non-empty
suffix. -/
def splitGoAux (sep : GoStr) : Nat → GoStr → List GoStr
  | _, [] => [[]]
  | 0, s => [s]
  | fuel + 1, c :: rest =>
    if beginsWith sep (c :: rest) then
      [] :: splitGoAux sep fuel ((c :: rest).drop sep.length)
    else
      match splitGoAux sep fuel rest with
      | [] => [[c]]
      | part :: parts => (c :: part) :: parts

/-- Go's `strings.Split(s, sep)` for a non-empty separator (all separators in
the embedded code are non-empty; the `[]` case is never exercised). -/
def goSplit (sep s : GoStr) : List GoStr :=
  match sep with
  | [] => [s]
  | _ :: _ => splitGoAux sep s.length s

/-- The separator `"->"`. -/
def sepArrow : GoStr := ['-', '>']

/-- The separator `":"`. -/
def sepColon : GoStr := [':']

/-- The separator `": "`. -/
def sepColonSpace : GoStr := [':', ' ']

/-- The separator `", "`. -/
def sepCommaSpace : GoStr := [',', ' ']

/-- The host-port extraction of `executeLocalServiceCheck`
(`monitor.go:328-337`).  Go source:

    portParts := strings.Split(portInfo, "->")
    if len(portParts) != 2 { continue }
    hostPortParts := strings.Split(portParts[0], ":")
    if len(hostPortParts) < 2 { continue }
    port := hostPortParts[1]

`none` embeds the two `continue`s (the mapping is skipped silently).  No
protocol check appears anywhere in this derivation. -/
def hostPortOfMapping (portInfo : GoStr) : Option GoStr :=
  match goSplit sepArrow portInfo with
  | [hostPart, _containerPart] =>
    match goSplit sepColon hostPart with
    | _ :: port :: _ => some port
    | _ => none
  | _ => none

/-- The inner loop of `executeLocalServiceCheck` over one line's port strings:
one probe job per mapping the extraction accepts. -/
def localJobsOfPorts (container : GoStr) (ports : List GoStr) :
    List (GoStr × GoStr) :=
  ports.filterMap (fun p => (hostPortOfMapping p).map (fun port => (container, port)))

/-- The per-line handling of `executeLocalServiceCheck` (`monitor.go:318-327`):
skip empty lines, require exactly one `": "` split into name and ports, then
derive jobs from the `", "`-separated port strings. -/
def localJobsOfLine (line : GoStr) : List (GoStr × GoStr) :=
  if line = [] then []
  else
    match goSplit sepColonSpace line with
    | [container, portsStr] => localJobsOfPorts container (goSplit sepCommaSpace portsStr)
    | _ => []

/-- Outcome of one probe in `executeLocalServiceCheck`: request construction
failed, `client.Do` failed, or a response with a status code. -/
inductive LocalOutcome
  | reqErr
  | doErr
  | ok (code : Nat)
deriving DecidableEq, Repr

/-- The four `status` strings of `executeLocalServiceCheck`
(`monitor.go:345,354,359,361`): `"request error"`, `"unreachable"`,
`"available"`, `fmt.Sprintf("HTTP %d", code)`. -/
inductive LocalStatus
  | requestError
  | unreachable
  | available
  | http (code : Nat)
deriving DecidableEq, Repr

/-- A `ServiceCheckResult` of `monitor.go`. -/
structure LocalResult where
  container : GoStr
  port : GoStr
  status : LocalStatus
deriving DecidableEq, Repr

/-- One probe goroutine of `executeLocalServiceCheck` (`monitor.go:340-363`):
every branch appends exactly one result. -/
def runLocalProbe (probe : GoStr → LocalOutcome) (job : GoStr × GoStr) :
    LocalResult :=
  match probe job.2 with
  | .reqErr => { container := job.1, port := job.2, status := .requestError }
  | .doErr => { container := job.1, port := job.2, status := .unreachable }
  | .ok code =>
    if code = 200 then { container := job.1, port := job.2, status := .available }
    else { container := job.1, port := job.2, status := .http code }

/-- The result set of one `executeLocalServiceCheck` pass over the listing's
lines (`monitor.go:318-366`): one result per derived job. -/
def executeLocalServiceCheckResults (lines : List GoStr)
    (probe : GoStr → LocalOutcome) : List LocalResult :=
  (lines.flatMap localJobsOfLine).map (runLocalProbe probe)

/-- A port protocol, per the spec's data model. -/
inductive Protocol
  | tcp
  | udp
deriving DecidableEq, Repr

/-- `PortMapping` per the spec's data model:
`{ containerPort: int, protocol: enum{tcp,udp}, hostPort: int }` (the host
port optional: unpublished mappings have none). -/
structure PortMapping where
  containerPort : Nat
  protocol : Protocol
  hostPort : Option Nat
deriving DecidableEq, Repr

def Protocol.render : Protocol → GoStr
  | .tcp => "tcp".toList
  | .udp => "udp".toList

/-- Modelled from the spec: the Target Source (the external
`docker ps --format "{{.Names}}: {{.Ports}}"` collaborator, out of scope of
the repository) renders a published port mapping as
`0.0.0.0:HOST->CONTAINER/PROTO` and an unpublished one as `CONTAINER/PROTO`. -/
def PortMapping.render (m : PortMapping) : GoStr :=
  match m.hostPort with
  | some hp =>
    "0.0.0.0:".toList ++ (Nat.repr hp).toList ++ sepArrow
      ++ (Nat.repr m.containerPort).toList ++ "/".toList ++ m.protocol.render
  | none => (Nat.repr m.containerPort).toList ++ "/".toList ++ m.protocol.render

/-- `Target` per the spec's data model (the raw state line is unused by the
probe pass). -/
structure Target where
  name : GoStr
  ports : List PortMapping
deriving DecidableEq, Repr

/-- Modelled from the spec: the Target Source's output line for one target,
`NAME: PORTS` with the port mappings joined by `", "`. -/
def Target.renderLine (t : Target) : GoStr :=
  t.name ++ sepColonSpace ++ List.intercalate sepCommaSpace (t.ports.map PortMapping.render)

/-- C4 (counterexample): the claim says a target whose only port mapping is
UDP contributes no entry to the result set.  The target
`{name: "db", ports: [{containerPort: 5432, protocol: udp, hostPort: 5432}]}`
renders as `db: 0.0.0.0:5432->5432/udp`; `executeLocalServiceCheck` extracts
host port `5432` without consulting the protocol and produces exactly one
result for it. -/
theorem udp_mapping_yields_result :
    executeLocalServiceCheckResults
        [Target.renderLine { name := "db".toList,
                             ports := [{ containerPort := 5432, protocol := .udp,
                                         hostPort := some 5432 }] }]
        (fun _ => .doErr)
      = [{ container := "db".toList, port := "5432".toList, status := .unreachable }] ∧
    executeLocalServiceCheckResults
        [Target.renderLine { name := "db".toList,
                             ports := [{ containerPort := 5432, protocol := .udp,
                                         hostPort := some 5432 }] }]
        (fun _ => .doErr) ≠ [] := by
  constructor
  · decide
  · decide

lemma localJobsOfPorts_of_parsed (container : GoStr)
    (items : List (GoStr × Option GoStr))
    (hparse : ∀ it ∈ items, hostPortOfMapping it.1 = it.2) :
    localJobsOfPorts container (items.map Prod.fst)
      = items.filterMap (fun it => it.2.map (fun port => (container, port))) := by
  induction items with
  | nil => rfl
  | cons it rest ih =>
    have hit : hostPortOfMapping it.1 = it.2 := hparse it (List.mem_cons_self it rest)
    have hrest : ∀ i ∈ rest, hostPortOfMapping i.1 = i.2 := fun i hi =>
      hparse i (List.mem_cons_of_mem it hi)
    simp only [List.map_cons, localJobsOfPorts, List.filterMap_cons, hit]
    cases it.2 with
    | none => simpa [localJobsOfPorts] using ih hrest
    | some port => simpa [localJobsOfPorts] using ih hrest

lemma length_filterMap_snd_map {α β γ : Type} (f : α → β → γ)
    (items : List (α × Option β)) :
    (items.filterMap (fun it => it.2.map (f it.1))).length
      = (items.filter (fun it => it.2.isSome)).length := by
  induction items with
  | nil => rfl
  | cons it rest ih =>
    cases h : it.2 with
    | none => simp [List.filterMap_cons, List.filter_cons, h, ih]
    | some b => simp [List.filterMap_cons, List.filter_cons, h, ih]

/-- C4 (amended): for a non-empty target line that splits as
`container ++ ": " ++ ports`, the probe pass produces exactly one result entry
per port mapping from which the code can extract a host port (the mapping
string contains `"->"` splitting it in two and its host part has a
`addr:port` colon) — regardless of the mapping's protocol, UDP included — and
zero entries for every other mapping (no host port extractable), skipped
silently without error; the result list is exactly one
probe result per extracted `(container, hostPort)` job. -/
theorem executeLocal_one_result_per_extractable_mapping
    (line container portsStr : GoStr) (items : List (GoStr × Option GoStr))
    (probe : GoStr → LocalOutcome)
    (hne : line ≠ [])
    (hline : goSplit sepColonSpace line = [container, portsStr])
    (hports : goSplit sepCommaSpace portsStr = items.map Prod.fst)
    (hparse : ∀ it ∈ items, hostPortOfMapping it.1 = it.2) :
    executeLocalServiceCheckResults [line] probe
      = (items.filterMap (fun it => it.2.map (fun port => (container, port)))).map
          (runLocalProbe probe) ∧
    (executeLocalServiceCheckResults [line] probe).length
      = (items.filter (fun it => it.2.isSome)).length := by
  have hjobs : executeLocalServiceCheckResults [line] probe
      = (localJobsOfPorts container (items.map Prod.fst)).map (runLocalProbe probe) := by
    simp [executeLocalServiceCheckResults, localJobsOfLine, hne, hline, hports]
  constructor
  · rw [hjobs, localJobsOfPorts_of_parsed container items hparse]
  · rw [hjobs, localJobsOfPorts_of_parsed container items hparse, List.length_map]
    exact length_filterMap_snd_map (fun _ port => (container, port)) items

/-- C4 (witness for `executeLocal_one_result_per_extractable_mapping`): the
target `web` with a published TCP mapping `0.0.0.0:8080->80/tcp` and an
unpublished UDP mapping `9000/udp`: hypotheses hold concretely and the pass
yields exactly one (available) result, for host port `8080`. -/
theorem executeLocal_one_result_per_extractable_mapping_witness :
    ("web: 0.0.0.0:8080->80/tcp, 9000/udp".toList ≠ ([] : GoStr)) ∧
    goSplit sepColonSpace "web: 0.0.0.0:8080->80/tcp, 9000/udp".toList
      = ["web".toList, "0.0.0.0:8080->80/tcp, 9000/udp".toList] ∧
    goSplit sepCommaSpace "0.0.0.0:8080->80/tcp, 9000/udp".toList
      = [("0.0.0.0:8080->80/tcp".toList, some "8080".toList),
         ("9000/udp".toList, (none : Option GoStr))].map Prod.fst ∧
    (∀ it ∈ [("0.0.0.0:8080->80/tcp".toList, some "8080".toList),
             ("9000/udp".toList, (none : Option GoStr))],
        hostPortOfMapping it.1 = it.2) ∧
    executeLocalServiceCheckResults ["web: 0.0.0.0:8080->80/tcp, 9000/udp".toList]
        (fun _ => .ok 200)
      = ([("0.0.0.0:8080->80/tcp".toList, some "8080".toList),
          ("9000/udp".toList, (none : Option GoStr))].filterMap
            (fun it => it.2.map (fun port => ("web".toList, port)))).map
          (runLocalProbe (fun _ => .ok 200)) ∧
    (executeLocalServiceCheckResults ["web: 0.0.0.0:8080->80/tcp, 9000/udp".toList]
        (fun _ => .ok 200)).length
      = ([("0.0.0.0:8080->80/tcp".toList, some "8080".toList),
          ("9000/udp".toList, (none : Option GoStr))].filter
            (fun it => it.2.isSome)).length := by
  refine ⟨by decide, by decide, by decide, by decide, ?_⟩
  exact executeLocal_one_result_per_extractable_mapping
    "web: 0.0.0.0:8080->80/tcp, 9000/udp".toList "web".toList
    "0.0.0.0:8080->80/tcp, 9000/udp".toList
    [("0.0.0.0:8080->80/tcp".toList, some "8080".toList),
     ("9000/udp".toList, (none : Option GoStr))]
    (fun _ => .ok 200) (by decide) (by decide) (by decide) (by decide)

/-! ## Probe orchestrator: the `CheckServices` pipeline
(`internal/docker/service.go:27-89`) -/

/-- `ServiceCheckResult` (`internal/docker/service.go:15-19`). -/
structure ServiceCheckResult where
  container : GoStr
  port : GoStr
  status : SvcStatus
deriving DecidableEq, Repr

/-- The port extraction of `CheckServices` (`internal/docker/service.go:43`):
`prt := strings.Split(p, ":")[1]`.  The index `[1]` is unconditional: on a
port string without a colon (ordinary `docker ps` output — an unpublished
port renders as `80/tcp`, a container with no ports leaves the ports field
empty) the Go program panics with an index-out-of-range.  `none` embeds that
panic, not a skip. -/
def svcJobOfPort (cName p : GoStr) : Option (GoStr × GoStr) :=
  match goSplit sepColon p with
  | _ :: prt :: _ => some (cName, prt)
  | _ => none

/-- The per-line job derivation of `CheckServices`
(`internal/docker/service.go:36-44`).  Go source:

    parts := strings.Split(line, ": ")
    if len(parts) != 2 { continue }
    cName, ports := parts[0], strings.Split(parts[1], ", ")
    for _, p := range ports {
        prt := strings.Split(p, ":")[1]
        ...
    }

`none` propagates the `svcJobOfPort` panic: the whole process dies before
`wg.Wait()`, so no result is ever collected and no webhook is posted. -/
def svcJobsOfLine (line : GoStr) : Option (List (GoStr × GoStr)) :=
  match goSplit sepColonSpace line with
  | [cName, portsStr] => (goSplit sepCommaSpace portsStr).mapM (svcJobOfPort cName)
  | _ => some []

/-- One probe goroutine of `CheckServices` (`internal/docker/service.go:46-62`):
classifies the outcome and appends exactly one result. -/
def runSvcProbe (threshold : Int) (probe : GoStr → ProbeOutcome)
    (job : GoStr × GoStr) : ServiceCheckResult :=
  { container := job.1, port := job.2, status := classifyProbe threshold (probe job.2) }

/-- The webhook pass of `CheckServices` (`internal/docker/service.go:79-88`).
Go source:

    if webhook != "" {
        for _, r := range results {
            if r.Status != "available" {
                http.Post(webhook, "application/json", strings.NewReader(...))
            }
        }
    }

Each `http.Post` call is recorded together with the oracle `postOk`'s verdict
on whether the post succeeded; the Go code discards `http.Post`'s two return
values entirely. -/
def alertPass (postOk : ServiceCheckResult → Bool) (webhook : String)
    (results : List ServiceCheckResult) : List (ServiceCheckResult × Bool) :=
  if webhook = "" then []
  else results.foldl (fun acc r =>
    if r.status ≠ SvcStatus.available then acc ++ [(r, postOk r)] else acc) []

/-- Everything observable about one completed `CheckServices` call: its return
value (`some msg` = a returned error), the result set, and the alerts posted. -/
structure SvcRun where
  ret : Option String
  results : List ServiceCheckResult
  posted : List (ServiceCheckResult × Bool)
deriving DecidableEq, Repr

/-- The tail of a completed `CheckServices` run over the derived jobs: one
result per job (`wg.Wait()` collected), then the webhook pass, then
`return nil`. -/
def mkSvcRun (threshold : Int) (webhook : String) (probe : GoStr → ProbeOutcome)
    (postOk : ServiceCheckResult → Bool) (jobs : List (GoStr × GoStr)) : SvcRun :=
  let results := jobs.map (runSvcProbe threshold probe)
  { ret := none, results := results, posted := alertPass postOk webhook results }

/-- `CheckServices` (`internal/docker/service.go:27-89`).  The transport step
`exec.Command("docker", "ps", ...).CombinedOutput()` is the input `psOut`:
`.error e` embeds a failed listing (err != nil, `e` its message and output),
`.ok lines` the split output lines.  `probe` gives each port's `http.Get`
outcome, `postOk` whether each webhook post succeeds.  The overall result is
`none` when the job derivation panics (see `svcJobOfPort`): the process
crashes with no return value, no results and no posts.  Go source of the
failure path:

    out, err := exec.Command("docker", "ps", ...).CombinedOutput()
    if err != nil {
        return fmt.Errorf("docker ps failed: %v %s", err, out)
    } -/
def checkServicesRun (psOut : Except String (List GoStr)) (threshold : Int)
    (webhook : String) (probe : GoStr → ProbeOutcome)
    (postOk : ServiceCheckResult → Bool) : Option SvcRun :=
  match psOut with
  | .error e => some { ret := some ("docker ps failed: " ++ e), results := [], posted := [] }
  | .ok lines =>
    (lines.mapM svcJobsOfLine).map (fun jobss =>
      mkSvcRun threshold webhook probe postOk jobss.flatten)

lemma alertPass_foldl (postOk : ServiceCheckResult → Bool)
    (results : List ServiceCheckResult) (acc : List (ServiceCheckResult × Bool)) :
    results.foldl (fun acc r =>
        if r.status ≠ SvcStatus.available then acc ++ [(r, postOk r)] else acc) acc
      = acc ++ (results.filter (fun r => r.status ≠ SvcStatus.available)).map
          (fun r => (r, postOk r)) := by
  induction results generalizing acc with
  | nil => simp
  | cons r rest ih =>
    rw [List.foldl_cons]
    by_cases hr : r.status = SvcStatus.available
    · rw [if_neg (not_not_intro hr), ih]
      simp [hr]
    · rw [if_pos hr, ih]
      simp [hr]

lemma alertPass_posted (postOk : ServiceCheckResult → Bool) (webhook : String)
    (results : List ServiceCheckResult) :
    (alertPass postOk webhook results).map Prod.fst
      = if webhook = "" then []
        else results.filter (fun r => r.status ≠ SvcStatus.available) := by
  unfold alertPass
  by_cases hw : webhook = ""
  · simp [hw]
  · simp only [hw, if_false, alertPass_foldl postOk results [], List.nil_append, List.map_map]
    have hid : (Prod.fst ∘ fun r : ServiceCheckResult => (r, postOk r)) = id := rfl
    rw [hid, List.map_id]

/-- C6: for every run of `CheckServices` that completes (the job derivation
does not panic, i.e. the run is `some`), when a webhook URL is configured the
posts attempted are exactly one per result whose classification is not
`available` (the posted list is the filter of the result set), none are
attempted when the webhook is empty, and the outcome of the posts themselves
(`postOk` versus `postOk'`) influences neither which alerts are attempted,
nor the result set, nor the return value — the run returns success
regardless. -/
theorem checkServices_alerts (psLines : List GoStr) (threshold : Int)
    (webhook : String) (probe : GoStr → ProbeOutcome)
    (postOk postOk' : ServiceCheckResult → Bool) (run run' : SvcRun)
    (h : checkServicesRun (.ok psLines) threshold webhook probe postOk = some run)
    (h' : checkServicesRun (.ok psLines) threshold webhook probe postOk' = some run') :
    run.posted.map Prod.fst
        = (if webhook = "" then []
           else run.results.filter (fun r => r.status ≠ SvcStatus.available)) ∧
    run.posted.map Prod.fst = run'.posted.map Prod.fst ∧
    run.results = run'.results ∧
    run.ret = none := by
  simp only [checkServicesRun, Option.map_eq_some'] at h h'
  obtain ⟨jobss, hm, hrun⟩ := h
  obtain ⟨jobss', hm', hrun'⟩ := h'
  rw [hm] at hm'
  injection hm' with hj
  subst hj
  subst hrun
  subst hrun'
  have h2 : ∀ pk : ServiceCheckResult → Bool,
      (mkSvcRun threshold webhook probe pk jobss.flatten).posted.map Prod.fst
        = if webhook = "" then []
          else (jobss.flatten.map (runSvcProbe threshold probe)).filter
            (fun r => r.status ≠ SvcStatus.available) :=
    fun pk => alertPass_posted pk webhook _
  exact ⟨h2 postOk, by rw [h2 postOk, h2 postOk'], rfl, rfl⟩

/-- The completed run of the C6 witness with every post succeeding. -/
def svcAlertsWitnessRun : SvcRun :=
  { ret := none,
    results := [{ container := "web".toList, port := "8080->80/tcp".toList,
                  status := .unreachable }],
    posted := [({ container := "web".toList, port := "8080->80/tcp".toList,
                  status := .unreachable }, true)] }

/-- The completed run of the C6 witness with every post failing. -/
def svcAlertsWitnessRunFailedPost : SvcRun :=
  { ret := none,
    results := [{ container := "web".toList, port := "8080->80/tcp".toList,
                  status := .unreachable }],
    posted := [({ container := "web".toList, port := "8080->80/tcp".toList,
                  status := .unreachable }, false)] }

/-- C6 (witness for `checkServices_alerts`): the listing line
`web: 0.0.0.0:8080->80/tcp` (service.go takes everything after the first
colon, so the probed "port" is `8080->80/tcp` and the probe errors), with a
webhook configured, one run where the post succeeds and one where it fails:
both hypotheses hold concretely and posts, results and return value agree. -/
theorem checkServices_alerts_witness :
    checkServicesRun (.ok ["web: 0.0.0.0:8080->80/tcp".toList]) 1000 "http://hook"
        (fun _ => .err) (fun _ => true) = some svcAlertsWitnessRun ∧
    checkServicesRun (.ok ["web: 0.0.0.0:8080->80/tcp".toList]) 1000 "http://hook"
        (fun _ => .err) (fun _ => false) = some svcAlertsWitnessRunFailedPost ∧
    (svcAlertsWitnessRun.posted.map Prod.fst
        = (if ("http://hook" : String) = "" then []
           else svcAlertsWitnessRun.results.filter
             (fun r => r.status ≠ SvcStatus.available)) ∧
     svcAlertsWitnessRun.posted.map Prod.fst
        = svcAlertsWitnessRunFailedPost.posted.map Prod.fst ∧
     svcAlertsWitnessRun.results = svcAlertsWitnessRunFailedPost.results ∧
     svcAlertsWitnessRun.ret = none) :=
  ⟨by decide, by decide,
   checkServices_alerts ["web: 0.0.0.0:8080->80/tcp".toList] 1000 "http://hook"
     (fun _ => .err) (fun _ => true) (fun _ => false)
     svcAlertsWitnessRun svcAlertsWitnessRunFailedPost (by decide) (by decide)⟩

/-- C7: a failed container listing (`docker ps` cannot run or exits non-zero)
makes `CheckServices` return the error immediately: no job is derived (so no
panic either), no probe runs, the result set is empty, and no webhook post is
attempted, whatever the threshold, webhook, probe behaviour or post
behaviour. -/
theorem checkServices_transport_failure (e : String) (threshold : Int)
    (webhook : String) (probe : GoStr → ProbeOutcome)
    (postOk : ServiceCheckResult → Bool) :
    checkServicesRun (.error e) threshold webhook probe postOk
      = some { ret := some ("docker ps failed: " ++ e), results := [], posted := [] } := rfl

/-! ## SSH alias resolution: `getSSHConfig` (`monitor.go:436-493`) -/

/-- The external inputs `getSSHConfig` consults after the config file is
opened and decoded: the three `cfg.Get(alias, ...)` lookups (where `none`
embeds "lookup errored or returned the empty string", the condition
`err != nil || value == ""` the Go code tests), plus the process environment
(`$USER`, `$HOME`). -/
structure SSHEnv where
  hostName : Option String
  user : Option String
  identityFile : Option String
  envUser : String
  home : String
deriving DecidableEq, Repr

/-- The resolved connection parameters `getSSHConfig` hands back:
the `ssh.ClientConfig`'s user, the private-key path it reads, and the address
`fmt.Sprintf("%s:22", hostname)`. -/
structure ResolvedSSH where
  user : String
  keyPath : String
  addr : String
deriving DecidableEq, Repr

/-- `expandPath` (`monitor.go:536-545`): a leading `~` is replaced by the home
directory (`strings.Replace(path, "~", home, 1)` on a path with prefix `~`),
anything else is returned unchanged. -/
def expandPath (home path : String) : String :=
  if path.startsWith "~" then home ++ path.drop 1 else path

/-- `getSSHConfig` (`monitor.go:436-493`), from the decode of the SSH config
onwards.  Go source of the resolution steps:

    hostname, err := cfg.Get(alias, "HostName")
    if err != nil || hostname == "" { return nil, "", fmt.Errorf("HostName not found for %s", alias) }
    user, err := cfg.Get(alias, "User")
    if err != nil || user == "" { user = os.Getenv("USER") }
    keyPath, err := cfg.Get(alias, "IdentityFile")
    if err != nil || keyPath == "" { keyPath = os.ExpandEnv("$HOME/.ssh/id_rsa") }
    else { keyPath, err = expandPath(keyPath); ... }
    key, err := os.ReadFile(keyPath); ...
    signer, err := ssh.ParsePrivateKey(key); ...
    hostKeyCallback, err := knownhosts.New(knownHostsFile); ...
    return clientConfig, fmt.Sprintf("%s:22", hostname), nil

`readFile`, `parseKey` and `knownHosts` are the later fallible steps, passed
as oracles (`.error` = the corresponding Go error return). -/
def getSSHConfig (alias' : String) (env : SSHEnv)
    (readFile : String → Except String String)
    (parseKey : String → Except String Unit)
    (knownHosts : Except String Unit) : Except String ResolvedSSH :=
  match env.hostName with
  | none => .error ("HostName not found for " ++ alias')
  | some hostname =>
    let user := match env.user with
      | none => env.envUser
      | some u => u
    let keyPath := match env.identityFile with
      | none => env.home ++ "/.ssh/id_rsa"
      | some kp => expandPath env.home kp
    match readFile keyPath with
    | .error e => .error ("Cannot read key at " ++ keyPath ++ ": " ++ e)
    | .ok key =>
      match parseKey key with
      | .error e => .error ("Cannot parse key at " ++ keyPath ++ ": " ++ e)
      | .ok _ =>
        match knownHosts with
        | .error e => .error ("Host key callback error: " ++ e)
        | .ok _ => .ok { user := user, keyPath := keyPath, addr := hostname ++ ":22" }

/-- C9 (counterexample): the claim says that apart from the port (default 22)
and the user (default `$USER`), the absence of any SSH-configuration field —
"such as the identity-file path" — is a resolution error.  With `HostName` and
`User` present but `IdentityFile` absent, `getSSHConfig` does not error: it
silently defaults the key path to `$HOME/.ssh/id_rsa` and resolves
successfully. -/
theorem getSSHConfig_missing_identity_file_not_error :
    getSSHConfig "web"
        { hostName := some "web.example", user := some "deploy",
          identityFile := none, envUser := "opus", home := "/home/opus" }
        (fun _ => .ok "PRIVATE-KEY") (fun _ => .ok ()) (.ok ())
      = .ok { user := "deploy", keyPath := "/home/opus/.ssh/id_rsa",
              addr := "web.example:22" } := rfl

/-- C9 (amended): a missing `HostName` is a resolution error; every other
lookup is silently defaulted — a missing user to `$USER`, a missing port to
`22` (the address is always `hostname:22`), and also a missing identity-file
path to `$HOME/.ssh/id_rsa`.  When the key file read, key parse and
known-hosts steps succeed, resolution succeeds with exactly those values. -/
theorem getSSHConfig_resolution (alias' : String) (env : SSHEnv)
    (readFile : String → Except String String)
    (parseKey : String → Except String Unit) :
    (env.hostName = none →
      getSSHConfig alias' env readFile parseKey (.ok ())
        = .error ("HostName not found for " ++ alias')) ∧
    (∀ hostname key, env.hostName = some hostname →
      readFile (match env.identityFile with
        | none => env.home ++ "/.ssh/id_rsa"
        | some kp => expandPath env.home kp) = .ok key →
      parseKey key = .ok () →
      getSSHConfig alias' env readFile parseKey (.ok ())
        = .ok { user := env.user.getD env.envUser,
                keyPath := (match env.identityFile with
                  | none => env.home ++ "/.ssh/id_rsa"
                  | some kp => expandPath env.home kp),
                addr := hostname ++ ":22" }) := by
  constructor
  · intro h
    simp [getSSHConfig, h]
  · intro hostname key hh hr hp
    cases env' : env.identityFile with
    | none =>
      cases henvu : env.user with
      | none =>
        simp only [getSSHConfig, hh, env', henvu] at hr ⊢
        simp [hr, hp, Option.getD]
      | some u =>
        simp only [getSSHConfig, hh, env', henvu] at hr ⊢
        simp [hr, hp, Option.getD]
    | some kp =>
      cases henvu : env.user with
      | none =>
        simp only [getSSHConfig, hh, env', henvu] at hr ⊢
        simp [hr, hp, Option.getD]
      | some u =>
        simp only [getSSHConfig, hh, env', henvu] at hr ⊢
        simp [hr, hp, Option.getD]

/-- A concrete SSH environment for the C9 witness: `HostName` present,
`User` and `IdentityFile` absent. -/
def sshEnvNoUserNoKey : SSHEnv :=
  { hostName := some "db.internal", user := none, identityFile := none,
    envUser := "opus", home := "/home/opus" }

/-- C9 (witness for `getSSHConfig_resolution`): the concrete environment with
`HostName` present and `User`/`IdentityFile` absent — both defaults fire and
resolution succeeds with user `opus` and key path `/home/opus/.ssh/id_rsa`. -/
theorem getSSHConfig_resolution_witness :
    getSSHConfig "db" sshEnvNoUserNoKey
        (fun _ => .ok "KEY") (fun _ => .ok ()) (.ok ())
      = .ok { user := "opus", keyPath := "/home/opus/.ssh/id_rsa",
              addr := "db.internal" ++ ":22" } :=
  (getSSHConfig_resolution "db" sshEnvNoUserNoKey
      (fun _ => .ok "KEY") (fun _ => .ok ())).2 "db.internal" "KEY" rfl rfl rfl

/-! ## Refresh loop: `watchMode` (`monitor.go:547-585`) -/

/-- An event the `select` statement of `watchMode` can receive while the loop
is in its `Waiting` state: the interval ticker fires (`<-ticker.C`) or the
cancellation signal arrives (`<-sigChan`). -/
inductive WatchEv
  | tick
  | signal
deriving DecidableEq, Repr

/-- The `for { select { ... } }` loop of `watchMode` (`monitor.go:571-584`),
as a transition system over the sequence of events delivered to it.
`samples` counts the `displayStatus` sampling passes performed so far.  A
`tick` performs one more pass and returns to `Waiting`; a `signal` makes the
loop return at once (`return nil`), consuming nothing further.  The result is
`(total sampling passes, loop returned)`; an exhausted (finite) event list
leaves the loop still blocked in `select` (`false`). -/
def watchLoop : List WatchEv → Nat → Nat × Bool
  | [], samples => (samples, false)
  | .tick :: rest, samples => watchLoop rest (samples + 1)
  | .signal :: _, samples => (samples, true)

/-- `watchMode` (`monitor.go:547-585`): one eager `displayStatus` pass before
the loop (`monitor.go:565-569`), then the event loop. -/
def watchModeRun (events : List WatchEv) : Nat × Bool :=
  watchLoop events 1

/-- C8: if the cancellation signal is delivered while the loop is in its
`Waiting` state — i.e. the next event after `n` ticks is `signal` — the loop
returns having performed exactly the `n + 1` sampling passes already
completed (the eager initial pass plus one per tick), emits no further
sample, and consumes nothing after the signal: the outcome is independent of
any events (`rest`) that would have followed, in particular of the next
interval tick. -/
theorem watchMode_cancellation (n : Nat) (rest : List WatchEv) :
    watchModeRun (List.replicate n .tick ++ .signal :: rest) = (n + 1, true) := by
  unfold watchModeRun
  suffices h : ∀ (k : Nat) (samples : Nat),
      watchLoop (List.replicate k .tick ++ .signal :: rest) samples = (samples + k, true) by
    have := h n 1
    rw [this]
    congr 1
    omega
  intro k
  induction k with
  | zero => intro samples; simp [watchLoop]
  | succ m ih =>
    intro samples
    rw [List.replicate_succ, List.cons_append]
    show watchLoop (List.replicate m .tick ++ .signal :: rest) (samples + 1) = (samples + (m + 1), true)
    rw [ih (samples + 1)]
    congr 1
    omega

/-! ## Lock discipline of the probe goroutines
(`internal/docker/service.go:46-62`, `monitor.go:340-363`) -/

/-- The observable actions of one probe goroutine, in program order:
the HTTP request (`http.Get` / `client.Do`), the response-body close,
mutex acquire/release, and the append to the shared result slice. -/
inductive ProbeAct
  | httpRequest
  | closeBody
  | lockAcquire
  | appendResult
  | lockRelease
deriving DecidableEq, Repr

/-- `CheckServices` goroutine (`internal/docker/service.go:46-62`), success
path (`err == nil`): `http.Get`; classify; `resp.Body.Close()`; `mu.Lock()`;
append; `mu.Unlock()`. -/
def serviceTraceOk : List ProbeAct :=
  [.httpRequest, .closeBody, .lockAcquire, .appendResult, .lockRelease]

/-- `CheckServices` goroutine, request-error path (`err != nil`): `http.Get`;
`mu.Lock()`; append; `mu.Unlock()`. -/
def serviceTraceErr : List ProbeAct :=
  [.httpRequest, .lockAcquire, .appendResult, .lockRelease]

/-- `executeLocalServiceCheck` goroutine (`monitor.go:340-363`),
request-construction-error path: no network call at all; `mu.Lock()`; append;
`mu.Unlock()` (explicit lock/unlock around the append, `monitor.go:344-346`). -/
def monitorTraceReqErr : List ProbeAct :=
  [.lockAcquire, .appendResult, .lockRelease]

/-- `executeLocalServiceCheck` goroutine, `client.Do` error path:
`client.Do`; `mu.Lock()`; `defer mu.Unlock()`; append; return (the deferred
unlock runs). -/
def monitorTraceDoErr : List ProbeAct :=
  [.httpRequest, .lockAcquire, .appendResult, .lockRelease]

/-- `executeLocalServiceCheck` goroutine, success path: `client.Do`;
`mu.Lock()`; `defer mu.Unlock()`; `defer resp.Body.Close()`; append; return.
Go runs deferred calls in LIFO order, so `resp.Body.Close()` executes before
`mu.Unlock()` — i.e. inside the locked region. -/
def monitorTraceOk : List ProbeAct :=
  [.httpRequest, .lockAcquire, .appendResult, .closeBody, .lockRelease]

/-- The actions a trace performs while holding the result lock. -/
def lockedActions : Bool → List ProbeAct → List ProbeAct
  | _, [] => []
  | _, .lockAcquire :: rest => lockedActions true rest
  | _, .lockRelease :: rest => lockedActions false rest
  | held, a :: rest => (if held then [a] else []) ++ lockedActions held rest

/-- Whether a trace performs network I/O (the HTTP request or the
response-body close) while holding the result lock. -/
def ioWhileLocked (tr : List ProbeAct) : Bool :=
  (lockedActions false tr).any (fun a => a = .httpRequest || a = .closeBody)

/-- C10 (counterexample): the claim says no probe task ever holds the result
lock while performing network I/O, the response-body close included.  In the
success path of `executeLocalServiceCheck` the deferred `resp.Body.Close()`
runs before the deferred `mu.Unlock()` (Go defers are LIFO), so the body
close — and the status classification — happen inside the locked region, and
the lock is not held "only for the duration of the append". -/
theorem monitor_probe_closes_body_under_lock :
    ioWhileLocked monitorTraceOk = true ∧
    lockedActions false monitorTraceOk = [.appendResult, .closeBody] := by
  constructor
  · decide
  · decide

/-- C10 (amended): in every probe-goroutine path of both implementations the
HTTP request itself is performed outside the locked region, and in
`CheckServices` (`internal/docker/service.go`) the lock is held only for the
append — no I/O, body close included, under the lock; but in
`executeLocalServiceCheck` (`monitor.go`) the success path holds the lock
from classification through the deferred response-body close, so there the
locked region is not limited to the append. -/
theorem probe_lock_discipline :
    lockedActions false serviceTraceOk = [.appendResult] ∧
    lockedActions false serviceTraceErr = [.appendResult] ∧
    ioWhileLocked serviceTraceOk = false ∧
    ioWhileLocked serviceTraceErr = false ∧
    (lockedActions false monitorTraceReqErr).all (fun a => a = .appendResult) = true ∧
    (lockedActions false monitorTraceDoErr).all (fun a => a = .appendResult) = true ∧
    ((lockedActions false monitorTraceOk).contains ProbeAct.httpRequest = false ∧
     (lockedActions false monitorTraceReqErr).contains ProbeAct.httpRequest = false ∧
     (lockedActions false monitorTraceDoErr).contains ProbeAct.httpRequest = false) ∧
    ioWhileLocked monitorTraceOk = true := by
  refine ⟨?_, ?_, ?_, ?_, ?_, ?_, ⟨?_, ?_, ?_⟩, ?_⟩ <;> decide
